import Mathlib

/-!
# Verification of the X-profile monitor (`scrape_x_latest.py`)

A shallow embedding of the change-detection and notification pipeline of
`scrape_x_latest.py`: profile-reference normalization (`parse_username`),
the incremental scroll-and-collect loop of `scrape_profile_df`, its
DataFrame post-processing (truncate, de-duplicate by id, sort descending
by `created_at` with nulls last), URL reconstruction (`build_tweet_url`),
and the `monitor_many` loop (baseline seeding and the polling cycle with
its per-profile diff against `ref_ids`).

Modelling conventions:
* Python strings are `Str := List Char` (a Python `str` is a sequence of
  characters), so every operation evaluates by `decide`;
* timestamps appear already parsed: `Option Int` stands for the result of
  `pd.to_datetime(..., errors="coerce")`, with `none` for NaT (absent or
  unparseable `datetime` attribute);
* a pandas DataFrame of tweet rows is a `List Post` (row order = index
  order);
* the Playwright page is an environment value (`PageBehavior`): it either
  faults on navigation, shows a protected notice, times out waiting for a
  tweet, or serves content as a stream of batches, one batch per
  `add_batch` call (each call re-reads the currently rendered articles);
* Python exceptions are `Except`: an `Except.error` aborts the enclosing
  loop exactly as an uncaught Python exception would, leaving earlier
  side effects in place.
-/

/-- A Python string, modelled as its sequence of characters. -/
abbrev Str : Type := List Char

/-- Python `s.startswith(pre)`. -/
def pyStartsWith (s pre : Str) : Bool := pre.isPrefixOf s

/-- Python `s.strip()` (default: strip whitespace from both ends). -/
def pyStrip (s : Str) : Str :=
  ((s.dropWhile Char.isWhitespace).reverse.dropWhile Char.isWhitespace).reverse

/-- Python `s.strip("/")`. -/
def stripSlashes (s : Str) : Str :=
  ((s.dropWhile (fun c => c = '/')).reverse.dropWhile (fun c => c = '/')).reverse

/-- One raw scraped tweet, as produced by `collect_tweets_from_page`:
`id` (the digits after `/status/`), `url` (the raw `href`, possibly
relative), `created_at` (the parsed `datetime` attribute, `none` for
absent/unparseable), `text` (best effort). -/
structure Item where
  id : Str
  url : Str
  created_at : Option Int
  text : Str
deriving DecidableEq, Repr

/-- One row of the DataFrame returned by `scrape_profile_df`
(columns `id, username, created_at, text, url`). -/
structure Post where
  id : Str
  username : Str
  created_at : Option Int
  text : Str
  url : Str
deriving DecidableEq, Repr

/-- The data interpolated into the Discord message of `monitor_many`
(lines 246-253): the row's username, timestamp, text and the full URL
computed by `build_tweet_url`.  The surrounding string template and
`strftime` rendering are presentation only and are not modelled. -/
structure Notification where
  username : Str
  created_at : Option Int
  text : Str
  url : Str
deriving DecidableEq, Repr

/-- Modelled after `urllib.parse.urlparse(s).path` for the inputs
`parse_username` feeds it (strings starting with "http"): drop the
fragment (from the first `#`) and the query (from the first `?`); strip a
scheme prefix (a leading letter followed by letters/digits/`+`/`-`/`.`,
ending at the first `:`); if the remainder starts with `//`, drop the
netloc (up to the next `/`); the rest is the path. -/
def urlparsePath (s : Str) : Str :=
  let s0 := s.takeWhile (fun c => c ≠ '#')
  let s1 := s0.takeWhile (fun c => c ≠ '?')
  let pre := s1.takeWhile (fun c => c ≠ ':')
  let s2 :=
    if (':' ∈ s1) ∧ pre ≠ [] ∧ (pre.headD ' ').isAlpha ∧
        pre.all (fun c => c.isAlpha || c.isDigit || c = '+' || c = '-' || c = '.')
    then (s1.dropWhile (fun c => c ≠ ':')).drop 1
    else s1
  if pyStartsWith s2 "//".toList then ((s2.drop 2).dropWhile (fun c => c ≠ '/'))
  else s2

/-- `parse_username` (lines 56-66): accepts `https://x.com/user`, `@user`
or `user` and returns `user`; Python `path.split("/")[0]` on a nonempty
path is the segment before the first `/`. -/
def parse_username (profile : Str) : Str :=
  let s := pyStrip profile
  if pyStartsWith s "@".toList then s.drop 1
  else if pyStartsWith s "http".toList then
    let path := stripSlashes (urlparsePath s)
    if path ≠ [] then path.takeWhile (fun c => c ≠ '/') else []
  else s

/-- `build_tweet_url` (lines 199-206): keep `scraped_url` when it is
truthy (nonempty) and starts with "http", otherwise rebuild from username
and id. -/
def build_tweet_url (username tweet_id scraped_url : Str) : Str :=
  if scraped_url ≠ [] ∧ pyStartsWith scraped_url "http".toList then scraped_url
  else "https://x.com/".toList ++ username ++ "/status/".toList ++ tweet_id

/-- The output order of `sort_values("created_at", ascending=False)`:
`tsLE a b` means a row with timestamp `a` may precede one with timestamp
`b` — descending on values, with NaT (`none`) placed last
(pandas default `na_position="last"`). -/
def tsLE : Option Int → Option Int → Bool
  | none, none => true
  | none, some _ => false
  | some _, none => true
  | some a, some b => decide (b ≤ a)

/-- The `add_batch` closure of `scrape_profile_df` (lines 158-162): for
each tweet currently on the page, if its id is not in `seen`, add the id
to `seen` and append the tweet to `items`. -/
def add_batch (batch : List Item) (seen : List Str) (items : List Item) :
    List Str × List Item :=
  batch.foldl
    (fun acc t => if t.id ∈ acc.1 then acc else (t.id :: acc.1, acc.2 ++ [t]))
    (seen, items)

/-- The mutable locals of the scroll-and-collect loop (lines 154-173):
`k` counts the `add_batch` calls made so far (indexing the stream of page
states the batches are read from). -/
structure LoopState where
  k : Nat
  seen : List Str
  items : List Item
  idle_rounds : Nat
deriving Repr

/-- One body of the `while` loop (lines 165-173): a first `add_batch`,
the mid-loop `break` when `len(items) >= max_tweets` (second component
`true`), otherwise scroll, a second `add_batch`, and the idle-round
update `idle_rounds = idle_rounds + 1 if len(items) == before else 0`. -/
def loopBody (batches : Nat → List Item) (max_tweets : Nat) (s : LoopState) :
    LoopState × Bool :=
  let p1 := add_batch (batches s.k) s.seen s.items
  if max_tweets ≤ p1.2.length then (⟨s.k + 1, p1.1, p1.2, s.idle_rounds⟩, true)
  else
    let p2 := add_batch (batches (s.k + 1)) p1.1 p1.2
    (⟨s.k + 2, p2.1, p2.2,
      if p2.2.length = s.items.length then s.idle_rounds + 1 else 0⟩, false)

theorem add_batch_length_le (batch : List Item) (seen : List Str)
    (items : List Item) : items.length ≤ (add_batch batch seen items).2.length := by
  induction batch generalizing seen items with
  | nil => simp [add_batch]
  | cons t ts ih =>
    simp only [add_batch, List.foldl_cons] at *
    split
    · exact ih seen items
    · exact le_trans (by simp) (ih (t.id :: seen) (items ++ [t]))

theorem loopBody_items_le (batches : Nat → List Item) (max_tweets : Nat)
    (s : LoopState) : s.items.length ≤ (loopBody batches max_tweets s).1.items.length := by
  unfold loopBody
  dsimp only
  split
  · exact add_batch_length_le _ _ _
  · exact le_trans (add_batch_length_le (batches s.k) s.seen s.items)
      (add_batch_length_le _ _ _)

/-- Each non-breaking round either leaves `items` unchanged and bumps
`idle_rounds`, or strictly grows `items` and resets `idle_rounds`. -/
theorem loopBody_dichotomy (batches : Nat → List Item) (max_tweets : Nat)
    (s : LoopState) (hfalse : ((loopBody batches max_tweets s).2 : Bool) = false) :
    ((loopBody batches max_tweets s).1.items.length = s.items.length ∧
      (loopBody batches max_tweets s).1.idle_rounds = s.idle_rounds + 1) ∨
    (s.items.length < (loopBody batches max_tweets s).1.items.length ∧
      (loopBody batches max_tweets s).1.idle_rounds = 0) := by
  have hle1 := add_batch_length_le (batches s.k) s.seen s.items
  have hle2 := add_batch_length_le (batches (s.k + 1))
      (add_batch (batches s.k) s.seen s.items).1
      (add_batch (batches s.k) s.seen s.items).2
  unfold loopBody at hfalse ⊢
  dsimp only at hfalse ⊢
  split at hfalse
  · simp at hfalse
  · rename_i hnle
    rw [if_neg hnle]
    by_cases heq :
      (add_batch (batches (s.k + 1))
        (add_batch (batches s.k) s.seen s.items).1
        (add_batch (batches s.k) s.seen s.items).2).2.length = s.items.length
    · left
      exact ⟨by simp [heq], by simp [heq]⟩
    · right
      refine ⟨by simp only; omega, by simp [heq]⟩

/-- The `while` loop of `scrape_profile_df` (lines 164-173), by
well-founded recursion on `9 * (max_tweets - len(items)) + (8 - idle_rounds)`. -/
def scrapeLoop (batches : Nat → List Item) (max_tweets : Nat) (s : LoopState) :
    LoopState :=
  if h : s.items.length < max_tweets ∧ s.idle_rounds < 8 then
    match hb : loopBody batches max_tweets s with
    | (t, true) => t
    | (t, false) => scrapeLoop batches max_tweets t
  else s
termination_by 9 * (max_tweets - s.items.length) + (8 - s.idle_rounds)
decreasing_by
  have hd := loopBody_dichotomy batches max_tweets s (by rw [hb])
  rw [hb] at hd
  dsimp at hd
  omega

/-- `drop_duplicates(subset=["id"])` (line 183): keep the first row seen
for each id. -/
def drop_duplicates : List Post → List Str → List Post
  | [], _ => []
  | r :: rs, seen =>
    if r.id ∈ seen then drop_duplicates rs seen
    else r :: drop_duplicates rs (r.id :: seen)

/-- `sort_values("created_at", ascending=False)` (lines 183 and 246):
descending by timestamp, NaT last.  (Modelled as a stable merge sort; on
rows with pairwise-distinct timestamps — the case the spec constrains —
every correct sort produces the same list.) -/
def sortByCreated (rows : List Post) : List Post :=
  rows.mergeSort (fun a b => tsLE a.created_at b.created_at)

/-- The DataFrame post-processing of `scrape_profile_df` (lines 177-184):
truncate to `max_tweets`, return the empty frame if nothing is left,
attach the username column, de-duplicate by id, sort by `created_at`
descending. -/
def postProcess (username : Str) (max_tweets : Nat) (items : List Item) :
    List Post :=
  let t := items.take max_tweets
  if t = [] then []
  else
    sortByCreated (drop_duplicates
      (t.map (fun it => ⟨it.id, username, it.created_at, it.text, it.url⟩)) [])

/-- What the Playwright page does for one profile fetch: `navFault` means
`page.goto` (or another page call) raises an uncaught exception;
`protectedNotice` means the "posts are protected" locator is visible;
`noTweetTimeout` means no tweet article appears within the 8s wait
(`PWTimeout`); `content batches` serves `batches k` as the articles
visible at the k-th `add_batch` call. -/
inductive PageBehavior where
  | navFault
  | protectedNotice
  | noTweetTimeout
  | content (batches : Nat → List Item)

/-- `scrape_profile_df` (lines 125-184), as a function of the page
behaviour for each username.  `Except.error` models an uncaught
exception propagating to the caller; the protected-notice and
tweet-wait-timeout paths return the empty frame (lines 139-152). -/
def scrape_profile_df (beh : Str → PageBehavior) (profile : Str)
    (max_tweets : Nat) : Except Unit (List Post) :=
  let username := parse_username profile
  if username = [] then .ok []
  else
    match beh username with
    | .navFault => .error ()
    | .protectedNotice => .ok []
    | .noTweetTimeout => .ok []
    | .content batches =>
        .ok (postProcess username max_tweets
          (scrapeLoop batches max_tweets ⟨0, [], [], 0⟩).items)

/-- The `ref_ids` dict of `monitor_many` (line 229), as an association
list in insertion order (Python dicts preserve insertion order and hold
each key once). -/
abbrev RefIds : Type := List (Str × Finset Str)

def dictKeys (d : RefIds) : List Str := d.map Prod.fst

def dictLookup : RefIds → Str → Option (Finset Str)
  | [], _ => none
  | (k, v) :: d, u => if k = u then some v else dictLookup d u

/-- Python `d[u] = v`: replace the value of an existing key in place,
append a new key at the end. -/
def dictSet : RefIds → Str → Finset Str → RefIds
  | [], u, v => [(u, v)]
  | (k, w) :: d, u, v => if k = u then (k, v) :: d else (k, w) :: dictSet d u v

/-- `set(df["id"]) if not df.empty else set()` (lines 232 and 241). -/
def idsOf (df : List Post) : Finset Str :=
  if df = [] then ∅ else (df.map Post.id).toFinset

/-- `usernames = [parse_username(p) for p in profiles if parse_username(p)]`
(line 217). -/
def usernamesOf (profiles : List Str) : List Str :=
  (profiles.filter (fun p => parse_username p ≠ [])).map parse_username

/-- The initialization loop of `monitor_many` (lines 228-233): seed
`ref_ids[u]` from one fetch per username.  An uncaught fetch exception
aborts the loop (and `monitor_many` itself — only `KeyboardInterrupt` is
handled); assignments already made stand, carried by the `error` case. -/
def initRefIds (beh : Str → PageBehavior) (max_tweets : Nat) :
    List Str → RefIds → Except RefIds RefIds
  | [], ref => .ok ref
  | u :: rest, ref =>
    match scrape_profile_df beh u max_tweets with
    | .error _ => .error ref
    | .ok df0 => initRefIds beh max_tweets rest (dictSet ref u (idsOf df0))

/-- `new_ids = list(cur_ids - ref_ids[u])` (line 242), as a set (the
code only uses membership and nonemptiness of the list).
`dictLookup … |>.getD ∅` stands for the subscript `ref_ids[u]`; after
initialization every monitored `u` is a key (a missing key would be a
`KeyError` in the source), so the default is never exercised. -/
def new_idsOf (ref : RefIds) (u : Str) (cur_df : List Post) : Finset Str :=
  idsOf cur_df \ ((dictLookup ref u).getD ∅)

/-- The per-profile body of the polling loop (lines 240-258), after a
fetch that returned `cur_df`: compute `cur_ids = set(df["id"])`,
`new_ids = cur_ids - ref_ids[u]`, and if any new ids exist, emit one
notification per new row in `sort_values("created_at", ascending=False)`
order and replace `ref_ids[u]` with `cur_ids`; otherwise leave `ref_ids`
untouched. -/
def profileStep (ref : RefIds) (u : Str) (cur_df : List Post) :
    List Notification × RefIds :=
  let cur_ids := idsOf cur_df
  let new_ids := new_idsOf ref u cur_df
  if new_ids ≠ ∅ then
    ((sortByCreated (cur_df.filter (fun r => r.id ∈ new_ids))).map
        (fun r => ⟨r.username, r.created_at, r.text,
          build_tweet_url r.username r.id r.url⟩),
      dictSet ref u cur_ids)
  else ([], ref)

/-- Outcome of one pass of `for u in usernames` (lines 239-261):
`crashed = true` records that an uncaught fetch exception escaped the
`for` loop — the surrounding `while True` has no handler for it (only
`KeyboardInterrupt`), so it tears down the whole monitor. -/
structure CycleResult where
  ref : RefIds
  msgs : List Notification
  crashed : Bool

/-- One polling cycle of `monitor_many` (lines 239-261): fetch each
username in order and run `profileStep`; an uncaught fetch exception
aborts the cycle, keeping the side effects made so far. -/
def pollCycle (beh : Str → PageBehavior) (max_tweets : Nat) :
    List Str → RefIds → List Notification → CycleResult
  | [], ref, msgs => ⟨ref, msgs, false⟩
  | u :: rest, ref, msgs =>
    match scrape_profile_df beh u max_tweets with
    | .error _ => ⟨ref, msgs, true⟩
    | .ok cur_df =>
        pollCycle beh max_tweets rest (profileStep ref u cur_df).2
          (msgs ++ (profileStep ref u cur_df).1)

/-- The `while True` loop of `monitor_many` (lines 236-261) run for a
given list of cycles (one page-behaviour environment per cycle): a cycle
whose uncaught exception escapes the `for` loop also escapes `while True`
(whose only handler is for `KeyboardInterrupt`), ending the run with
`crashed = true`. -/
def runCycles (max_tweets : Nat) :
    List (Str → PageBehavior) → List Str → RefIds → List Notification →
      RefIds × List Notification × Bool
  | [], _, ref, msgs => (ref, msgs, false)
  | beh :: rest, us, ref, msgs =>
    let r := pollCycle beh max_tweets us ref msgs
    if r.crashed then (r.ref, r.msgs, true)
    else runCycles max_tweets rest us r.ref r.msgs

/-- `monitor_many` (lines 209-267) as a state trace: normalize the
configured profiles, seed the baselines, then run the polling cycles.
The final `Bool` is `true` when an uncaught exception tore the monitor
down (during seeding or during a cycle). -/
def monitorRun (behInit : Str → PageBehavior)
    (cycles : List (Str → PageBehavior)) (max_tweets : Nat)
    (profiles : List Str) : RefIds × List Notification × Bool :=
  match initRefIds behInit max_tweets (usernamesOf profiles) [] with
  | .error ref => (ref, [], true)
  | .ok ref => runCycles max_tweets cycles (usernamesOf profiles) ref []

theorem dictLookup_dictSet_self (d : RefIds) (u : Str) (v : Finset Str) :
    dictLookup (dictSet d u v) u = some v := by
  induction d with
  | nil => simp [dictSet, dictLookup]
  | cons kv d ih =>
    by_cases h : kv.1 = u <;> simp [dictSet, dictLookup, h, ih]

theorem dictLookup_dictSet_ne (d : RefIds) (w u : Str) (v : Finset Str)
    (h : w ≠ u) : dictLookup (dictSet d w v) u = dictLookup d u := by
  induction d with
  | nil => simp [dictSet, dictLookup, h]
  | cons kv d ih =>
    by_cases hk : kv.1 = w
    · simp [dictSet, dictLookup, hk, h]
    · simp [dictSet, dictLookup, hk, ih]

theorem dictKeys_cons (kv : Str × Finset Str) (d : RefIds) :
    dictKeys (kv :: d) = kv.1 :: dictKeys d := rfl

theorem dictKeys_dictSet_mem (d : RefIds) (u : Str) (v : Finset Str)
    (h : u ∈ dictKeys d) : dictKeys (dictSet d u v) = dictKeys d := by
  induction d with
  | nil => simp [dictKeys] at h
  | cons kv d ih =>
    rw [dictKeys_cons, List.mem_cons] at h
    by_cases hk : kv.1 = u
    · simp [dictSet, hk, dictKeys_cons]
    · rcases h with h | h
      · exact absurd h.symm hk
      · simp [dictSet, hk, dictKeys_cons, ih h]

theorem dictKeys_dictSet_new (d : RefIds) (u : Str) (v : Finset Str)
    (h : u ∉ dictKeys d) : dictKeys (dictSet d u v) = dictKeys d ++ [u] := by
  induction d with
  | nil => simp [dictSet, dictKeys]
  | cons kv d ih =>
    rw [dictKeys_cons, List.mem_cons] at h
    push_neg at h
    simp [dictSet, Ne.symm h.1, dictKeys_cons, ih h.2]

theorem dictSet_mem_keys (d : RefIds) (w u : Str) (v : Finset Str) :
    u ∈ dictKeys (dictSet d w v) ↔ u ∈ dictKeys d ∨ u = w := by
  by_cases h : w ∈ dictKeys d
  · rw [dictKeys_dictSet_mem d w v h]
    constructor
    · exact Or.inl
    · rintro (hu | rfl)
      · exact hu
      · exact h
  · rw [dictKeys_dictSet_new d w v h]
    simp

theorem tsLE_trans (a b c : Option Int) (h1 : tsLE a b) (h2 : tsLE b c) :
    tsLE a c := by
  cases a <;> cases b <;> cases c <;> simp_all [tsLE] <;> omega

theorem tsLE_total (a b : Option Int) : tsLE a b ∨ tsLE b a := by
  cases a <;> cases b <;> simp [tsLE] <;> omega

theorem sortByCreated_sorted (rows : List Post) :
    (sortByCreated rows).Pairwise
      (fun a b => tsLE a.created_at b.created_at = true) := by
  exact List.sorted_mergeSort
    (fun a b c => tsLE_trans a.created_at b.created_at c.created_at)
    (fun a b => by
      rcases tsLE_total a.created_at b.created_at with h | h <;> simp [h])
    rows

theorem sortByCreated_perm (rows : List Post) :
    List.Perm (sortByCreated rows) rows :=
  List.mergeSort_perm rows _

theorem initRefIds_ok_mem_keys (beh : Str → PageBehavior) (max_tweets : Nat) :
    ∀ (us : List Str) (ref ref' : RefIds),
      initRefIds beh max_tweets us ref = .ok ref' →
      ∀ u, u ∈ dictKeys ref' ↔ u ∈ dictKeys ref ∨ u ∈ us := by
  intro us
  induction us with
  | nil =>
    intro ref ref' h u
    simp [initRefIds] at h
    simp [h]
  | cons v rest ih =>
    intro ref ref' h u
    rw [initRefIds] at h
    rcases hscr : scrape_profile_df beh v max_tweets with e | df0 <;> rw [hscr] at h
    · simp at h
    · rw [ih _ _ h u, dictSet_mem_keys]
      simp
      tauto

theorem initRefIds_lookup_notmem (beh : Str → PageBehavior) (max_tweets : Nat) :
    ∀ (us : List Str) (ref ref' : RefIds),
      initRefIds beh max_tweets us ref = .ok ref' →
      ∀ u, u ∉ us → dictLookup ref' u = dictLookup ref u := by
  intro us
  induction us with
  | nil =>
    intro ref ref' h u _
    simp [initRefIds] at h
    simp [h]
  | cons v rest ih =>
    intro ref ref' h u hu
    rw [initRefIds] at h
    rcases hscr : scrape_profile_df beh v max_tweets with e | df0 <;> rw [hscr] at h
    · simp at h
    · rw [List.mem_cons] at hu
      push_neg at hu
      rw [ih _ _ h u hu.2]
      exact dictLookup_dictSet_ne ref v u _ (Ne.symm hu.1)

theorem initRefIds_ok_lookup (beh : Str → PageBehavior) (max_tweets : Nat) :
    ∀ (us : List Str) (ref ref' : RefIds),
      initRefIds beh max_tweets us ref = .ok ref' →
      ∀ u ∈ us, ∃ df, scrape_profile_df beh u max_tweets = .ok df ∧
        dictLookup ref' u = some (idsOf df) := by
  intro us
  induction us with
  | nil => simp
  | cons v rest ih =>
    intro ref ref' h u hu
    rw [initRefIds] at h
    rcases hscr : scrape_profile_df beh v max_tweets with e | df0 <;> rw [hscr] at h
    · simp at h
    · by_cases hmem : u ∈ rest
      · exact ih _ _ h u hmem
      · rw [List.mem_cons] at hu
        rcases hu with rfl | hu
        · refine ⟨df0, hscr, ?_⟩
          rw [initRefIds_lookup_notmem beh max_tweets rest _ _ h u hmem]
          exact dictLookup_dictSet_self ref u (idsOf df0)
        · exact absurd hu hmem

theorem profileStep_keys (ref : RefIds) (u : Str) (cur_df : List Post)
    (h : u ∈ dictKeys ref) :
    dictKeys (profileStep ref u cur_df).2 = dictKeys ref := by
  unfold profileStep
  dsimp only
  split
  · exact dictKeys_dictSet_mem ref u _ h
  · rfl

theorem pollCycle_keys (beh : Str → PageBehavior) (max_tweets : Nat) :
    ∀ (us : List Str) (ref : RefIds) (msgs : List Notification),
      (∀ u ∈ us, u ∈ dictKeys ref) →
      dictKeys (pollCycle beh max_tweets us ref msgs).ref = dictKeys ref := by
  intro us
  induction us with
  | nil => intro ref msgs _; rfl
  | cons v rest ih =>
    intro ref msgs hmem
    rw [pollCycle]
    rcases hscr : scrape_profile_df beh v max_tweets with e | df
    · rfl
    · have hkeys := profileStep_keys ref v df (hmem v (by simp))
      rw [ih _ _ (fun u hu => hkeys ▸ hmem u (List.mem_cons_of_mem v hu)), hkeys]

/-- A concrete scraped tweet with id `i` and timestamp `ts`, with the
relative `href` X serves (`/<user>/status/<id>`). -/
def mkItem (i : Str) (ts : Int) : Item :=
  ⟨i, "/u/status/".toList ++ i, some ts, "t".toList⟩

def C1item : Item := ⟨"1".toList, "/u/status/1".toList, some 1, "t".toList⟩

def C1beh : Str → PageBehavior := fun _ => .content (fun _ => [C1item])

def C1ref : RefIds := [("u".toList, {"1".toList, "2".toList})]

def C1df : List Post :=
  [⟨"1".toList, "u".toList, some 1, "t".toList, "/u/status/1".toList⟩]

/-- Claim C1 is FALSE on the code: with baseline `{1, 2}` for profile `u`
and a completed fetch whose id set is `{1}` (fewer records than before,
empty delta), the polling cycle leaves the Baseline Store entry at
`{1, 2}` — it is NOT replaced by the fetch's id set `{1}`, because the
assignment `ref_ids[u] = cur_ids` only runs under `if new_ids:`. -/
theorem C1_counterexample :
    scrape_profile_df C1beh "u".toList 1 = .ok C1df ∧
    idsOf C1df = {"1".toList} ∧
    (pollCycle C1beh 1 ["u".toList] C1ref []).ref = C1ref ∧
    ({"1".toList, "2".toList} : Finset Str) ≠ {"1".toList} := by
  refine ⟨?_, by decide, ?_, by decide⟩
  · simp [scrape_profile_df, C1beh, parse_username, pyStrip, pyStartsWith,
      postProcess, scrapeLoop, loopBody, add_batch, drop_duplicates,
      sortByCreated, List.mergeSort, C1item, C1df]
  · simp [pollCycle, scrape_profile_df, C1beh, parse_username, pyStrip,
      pyStartsWith, postProcess, scrapeLoop, loopBody, add_batch,
      drop_duplicates, sortByCreated, List.mergeSort, C1item, profileStep,
      new_idsOf, idsOf, C1ref, dictLookup]

/-- Claim C1, amended: after a polling-cycle fetch completes, the
Baseline Store entry for the profile is replaced with the fetch result's
id set exactly when the delta is nonempty; when the delta is empty (no
new ids — in particular whenever the fetch returned a subset of the known
ids, however few records) the entry keeps its previous value. -/
theorem C1_amended_thm (ref : RefIds) (u : Str) (cur_df : List Post) :
    (new_idsOf ref u cur_df ≠ ∅ →
      (profileStep ref u cur_df).2 = dictSet ref u (idsOf cur_df)) ∧
    (new_idsOf ref u cur_df = ∅ → (profileStep ref u cur_df).2 = ref) := by
  by_cases h : new_idsOf ref u cur_df = ∅ <;> simp [profileStep, h]

/-- Witness for `C1_amended_thm` at the concrete `C1` scenario. -/
theorem C1_witness : (profileStep C1ref "u".toList C1df).2 = C1ref :=
  (C1_amended_thm C1ref "u".toList C1df).2 (by decide)

/-- Claim C4 is FALSE on the code: the configured profile `@Alice` is
accepted, its Baseline Store key is `Alice` — `parse_username` strips the
`@` but never lowercases, so the key used is not lowercase. -/
theorem C4_counterexample :
    usernamesOf ["@Alice".toList] = ["Alice".toList] ∧
    initRefIds (fun _ => PageBehavior.noTweetTimeout) 10
      (usernamesOf ["@Alice".toList]) [] = .ok [("Alice".toList, ∅)] ∧
    ¬ ("Alice".toList = "Alice".toList.map Char.toLower) := by
  refine ⟨by decide, ?_, by decide⟩
  rfl

/-- Claim C4, amended: normalization strips the `@` prefix (or URL
host/path prefix) but applies no lowercasing — the stripped username is
used verbatim, case preserved, as the Baseline Store key: the key set
after initialization is exactly the set of `parse_username` outputs. -/
theorem C4_amended_thm (behInit : Str → PageBehavior) (maxI : Nat)
    (profiles : List Str) (ref : RefIds)
    (h : initRefIds behInit maxI (usernamesOf profiles) [] = .ok ref) :
    (∀ u, u ∈ dictKeys ref ↔ u ∈ usernamesOf profiles) ∧
    (∀ p : Str, pyStartsWith (pyStrip p) "@".toList = true →
      parse_username p = (pyStrip p).drop 1) := by
  constructor
  · intro u
    rw [initRefIds_ok_mem_keys behInit maxI _ _ _ h u]
    simp [dictKeys]
  · intro p hp
    simp only [show ("@".toList : Str) = ['@'] from rfl] at hp
    simp [parse_username, hp]

/-- Witness for `C4_amended_thm`: the mixed-case profile `@Alice` seeds
the key `Alice` verbatim. -/
theorem C4_witness :
    ("Alice".toList ∈ dictKeys [("Alice".toList, (∅ : Finset Str))] ↔
      "Alice".toList ∈ usernamesOf ["@Alice".toList]) ∧
    parse_username "@Alice".toList = (pyStrip "@Alice".toList).drop 1 :=
  ⟨((C4_amended_thm (fun _ => PageBehavior.noTweetTimeout) 10
      ["@Alice".toList] [("Alice".toList, ∅)] rfl).1 "Alice".toList),
   ((C4_amended_thm (fun _ => PageBehavior.noTweetTimeout) 10
      ["@Alice".toList] [("Alice".toList, ∅)] rfl).2 "@Alice".toList (by decide))⟩

def C6behA : Str → PageBehavior := fun _ => .content (fun _ =>
  [mkItem "2".toList 2, mkItem "3".toList 3, mkItem "4".toList 4,
   mkItem "5".toList 5])

def C6refA : RefIds := [("u".toList, {"1".toList, "2".toList, "3".toList})]

def C6dfA : List Post :=
  [⟨"5".toList, "u".toList, some 5, "t".toList, "/u/status/5".toList⟩,
   ⟨"4".toList, "u".toList, some 4, "t".toList, "/u/status/4".toList⟩,
   ⟨"3".toList, "u".toList, some 3, "t".toList, "/u/status/3".toList⟩,
   ⟨"2".toList, "u".toList, some 2, "t".toList, "/u/status/2".toList⟩]

def C6behB : Str → PageBehavior := fun _ => .content (fun _ =>
  [mkItem "4".toList 4, mkItem "5".toList 5])

def C6dfB : List Post :=
  [⟨"5".toList, "u".toList, some 5, "t".toList, "/u/status/5".toList⟩,
   ⟨"4".toList, "u".toList, some 4, "t".toList, "/u/status/4".toList⟩]

/-- Claim C6: with baseline `{1,2,3}` and a fetch returning `{2,3,4,5}`,
the computed `new_ids` is exactly `{4,5}` and after the cycle the
baseline is `{2,3,4,5}` (not the union `{1,2,3,4,5}`); with the same
baseline and a fetch returning `{4,5}`, `new_ids` is `{4,5}` and the
baseline becomes `{4,5}`, dropping the old ids. -/
theorem C6_delta_correctness :
    scrape_profile_df C6behA "u".toList 4 = .ok C6dfA ∧
    idsOf C6dfA = {"2".toList, "3".toList, "4".toList, "5".toList} ∧
    new_idsOf C6refA "u".toList C6dfA = {"4".toList, "5".toList} ∧
    (pollCycle C6behA 4 ["u".toList] C6refA []).ref =
      [("u".toList, {"2".toList, "3".toList, "4".toList, "5".toList})] ∧
    ({"2".toList, "3".toList, "4".toList, "5".toList} : Finset Str) ≠
      {"1".toList, "2".toList, "3".toList, "4".toList, "5".toList} ∧
    scrape_profile_df C6behB "u".toList 2 = .ok C6dfB ∧
    idsOf C6dfB = {"4".toList, "5".toList} ∧
    new_idsOf C6refA "u".toList C6dfB = {"4".toList, "5".toList} ∧
    (pollCycle C6behB 2 ["u".toList] C6refA []).ref =
      [("u".toList, {"4".toList, "5".toList})] := by
  refine ⟨?_, by decide, by decide, ?_, by decide, ?_, by decide, by decide, ?_⟩
  · simp [scrape_profile_df, C6behA, parse_username, pyStrip, pyStartsWith,
      postProcess, scrapeLoop, loopBody, add_batch, drop_duplicates,
      sortByCreated, List.mergeSort, List.merge, tsLE, mkItem, C6dfA]
  · simp [pollCycle, scrape_profile_df, C6behA, parse_username, pyStrip,
      pyStartsWith, postProcess, scrapeLoop, loopBody, add_batch,
      drop_duplicates, sortByCreated, List.mergeSort, List.merge, tsLE,
      mkItem, profileStep, new_idsOf, idsOf, C6refA, dictLookup, dictSet]
    decide
  · simp [scrape_profile_df, C6behB, parse_username, pyStrip, pyStartsWith,
      postProcess, scrapeLoop, loopBody, add_batch, drop_duplicates,
      sortByCreated, List.mergeSort, List.merge, tsLE, mkItem, C6dfB]
  · simp [pollCycle, scrape_profile_df, C6behB, parse_username, pyStrip,
      pyStartsWith, postProcess, scrapeLoop, loopBody, add_batch,
      drop_duplicates, sortByCreated, List.mergeSort, List.merge, tsLE,
      mkItem, profileStep, new_idsOf, idsOf, C6refA, dictLookup, dictSet]
    decide

def C2beh : Str → PageBehavior := fun u =>
  if u = "b".toList then .navFault else .content (fun _ => [mkItem "1".toList 1])

def C2ref : RefIds := [("b".toList, ∅), ("a".toList, ∅)]

def C2df : List Post :=
  [⟨"1".toList, "a".toList, some 1, "t".toList, "/u/status/1".toList⟩]

/-- Claim C2 is FALSE on the code: in a cycle over `[b, a]` where
fetching `b` raises a navigation fault, the exception escapes the `for`
loop (no handler but `KeyboardInterrupt` exists), so the Poll Scheduler
crashes and `a` — whose fetch would have succeeded with a new post, as
the last two conjuncts show — is never fetched and nothing is
dispatched. -/
theorem C2_counterexample :
    (pollCycle C2beh 1 ["b".toList, "a".toList] C2ref []).crashed = true ∧
    (pollCycle C2beh 1 ["b".toList, "a".toList] C2ref []).msgs = [] ∧
    (pollCycle C2beh 1 ["b".toList, "a".toList] C2ref []).ref = C2ref ∧
    scrape_profile_df C2beh "a".toList 1 = .ok C2df ∧
    (profileStep C2ref "a".toList C2df).1 ≠ [] := by
  refine ⟨?_, ?_, ?_, ?_, ?_⟩
  · simp [pollCycle, scrape_profile_df, C2beh, parse_username, pyStrip,
      pyStartsWith]
  · simp [pollCycle, scrape_profile_df, C2beh, parse_username, pyStrip,
      pyStartsWith]
  · simp [pollCycle, scrape_profile_df, C2beh, parse_username, pyStrip,
      pyStartsWith]
  · simp [scrape_profile_df, C2beh, parse_username, pyStrip, pyStartsWith,
      postProcess, scrapeLoop, loopBody, add_batch, drop_duplicates,
      sortByCreated, List.mergeSort, mkItem, C2df]
  · simp [profileStep, new_idsOf, idsOf, C2ref, C2df, dictLookup,
      sortByCreated, List.mergeSort]

/-- Claim C2, amended: a `PWTimeout` while waiting for a tweet article
(and likewise the protected-notice path) is confined to that profile and
cycle — the fetch returns an empty frame, the profile's baseline is left
untouched, and the remaining profiles are fetched, diffed and dispatched
exactly as if that profile were absent; but an uncaught
rendering/navigation fault (e.g. raised by `page.goto`) propagates out of
the polling loop: the faulting profile's baseline is untouched and the
remaining profiles of the cycle are skipped, and the Poll Scheduler
crashes. -/
theorem C2_amended_thm (beh : Str → PageBehavior) (max_tweets : Nat)
    (u : Str) (rest : List Str) (ref : RefIds) (msgs : List Notification)
    (hu : parse_username u ≠ []) :
    (beh (parse_username u) = .noTweetTimeout →
      pollCycle beh max_tweets (u :: rest) ref msgs =
        pollCycle beh max_tweets rest ref msgs) ∧
    (beh (parse_username u) = .navFault →
      pollCycle beh max_tweets (u :: rest) ref msgs = ⟨ref, msgs, true⟩) := by
  constructor
  · intro hb
    rw [pollCycle]
    simp [scrape_profile_df, hu, hb, profileStep, new_idsOf, idsOf]
  · intro hb
    rw [pollCycle]
    simp [scrape_profile_df, hu, hb]

/-- Witness for `C2_amended_thm` at concrete single-profile cycles. -/
theorem C2_witness :
    (pollCycle (fun _ => PageBehavior.noTweetTimeout) 5 ["u".toList] C2ref [] =
      pollCycle (fun _ => PageBehavior.noTweetTimeout) 5 [] C2ref []) ∧
    (pollCycle (fun _ => PageBehavior.navFault) 5 ["u".toList] C2ref [] =
      ⟨C2ref, [], true⟩) :=
  ⟨(C2_amended_thm (fun _ => PageBehavior.noTweetTimeout) 5 "u".toList []
      C2ref [] (by decide)).1 rfl,
   (C2_amended_thm (fun _ => PageBehavior.navFault) 5 "u".toList []
      C2ref [] (by decide)).2 rfl⟩

def C3behSeedFail : Str → PageBehavior := fun _ => .noTweetTimeout

def C3behEmpty : Str → PageBehavior := fun _ => .content (fun _ => [])

def C3behLater : Str → PageBehavior := fun _ =>
  .content (fun _ => [mkItem "1".toList 1, mkItem "2".toList 2])

/-- Claim C3 is violated by the code (the spec flags this itself in §9):
a seed fetch that times out is recorded as `ref_ids[u] = set()`, a state
IDENTICAL to the one left by seeding a genuinely empty profile — the two
initializations below produce equal Baseline Stores — and on the next
cycle every post of the profile's history (here both of its 2 posts) is
notified. -/
theorem C3_seed_indistinguishable :
    initRefIds C3behSeedFail 2 ["u".toList] [] = .ok [("u".toList, ∅)] ∧
    initRefIds C3behEmpty 2 ["u".toList] [] = .ok [("u".toList, ∅)] ∧
    (pollCycle C3behLater 2 ["u".toList] [("u".toList, ∅)] []).msgs.map
        Notification.url =
      ["https://x.com/u/status/2".toList, "https://x.com/u/status/1".toList] := by
  refine ⟨by rfl, ?_, ?_⟩
  · simp [initRefIds, scrape_profile_df, C3behEmpty, parse_username, pyStrip,
      pyStartsWith, postProcess, scrapeLoop, loopBody, add_batch, idsOf,
      dictSet]
  · simp [pollCycle, scrape_profile_df, C3behLater, parse_username, pyStrip,
      pyStartsWith, postProcess, scrapeLoop, loopBody, add_batch,
      drop_duplicates, sortByCreated, List.mergeSort, List.merge, tsLE,
      mkItem, profileStep, new_idsOf, idsOf, dictLookup, dictSet,
      build_tweet_url]

/-- Claim C5: for every profile, the seeding fetch — whatever it returns
— produces zero notifications (a monitor run that only initializes has an
empty message trace), and the baseline stored for each username is
exactly the id set of that username's fetch result. -/
theorem C5_idempotent_seeding (behInit : Str → PageBehavior)
    (max_tweets : Nat) (profiles : List Str) (ref : RefIds)
    (h : initRefIds behInit max_tweets (usernamesOf profiles) [] = .ok ref) :
    monitorRun behInit [] max_tweets profiles = (ref, [], false) ∧
    ∀ u ∈ usernamesOf profiles, ∃ df,
      scrape_profile_df behInit u max_tweets = .ok df ∧
      dictLookup ref u = some (idsOf df) := by
  constructor
  · rw [monitorRun, h]
    rfl
  · exact initRefIds_ok_lookup behInit max_tweets _ _ _ h

/-- Witness for `C5_idempotent_seeding`: a profile whose seed fetch
returns two posts is seeded with exactly those ids and no messages. -/
theorem C5_witness :
    monitorRun C3behLater [] 2 ["u".toList] =
      ([("u".toList, {"2".toList, "1".toList})], [], false) ∧
    ∃ df, scrape_profile_df C3behLater "u".toList 2 = .ok df ∧
      dictLookup [("u".toList, ({"2".toList, "1".toList} : Finset Str))]
        "u".toList = some (idsOf df) := by
  have hinit : initRefIds C3behLater 2 (usernamesOf ["u".toList]) [] =
      .ok [("u".toList, {"2".toList, "1".toList})] := by
    simp [initRefIds, usernamesOf, scrape_profile_df, C3behLater,
      parse_username, pyStrip, pyStartsWith, postProcess, scrapeLoop,
      loopBody, add_batch, drop_duplicates, sortByCreated, List.mergeSort,
      List.merge, tsLE, mkItem, idsOf, dictSet]
  refine ⟨(C5_idempotent_seeding C3behLater 2 ["u".toList] _ hinit).1, ?_⟩
  exact (C5_idempotent_seeding C3behLater 2 ["u".toList] _ hinit).2
    "u".toList (by decide)

/-- Claim C10: after initialization the Baseline Store's key set is
exactly the configured normalized usernames, and a polling cycle never
adds or removes a key — it only replaces values of existing keys. -/
theorem C10_fixed_key_set (behInit behCycle : Str → PageBehavior)
    (maxI maxC : Nat) (profiles : List Str) (ref : RefIds)
    (msgs : List Notification)
    (h : initRefIds behInit maxI (usernamesOf profiles) [] = .ok ref) :
    (∀ u, u ∈ dictKeys ref ↔ u ∈ usernamesOf profiles) ∧
    dictKeys (pollCycle behCycle maxC (usernamesOf profiles) ref msgs).ref =
      dictKeys ref := by
  have hkeys : ∀ u, u ∈ dictKeys ref ↔ u ∈ usernamesOf profiles := by
    intro u
    rw [initRefIds_ok_mem_keys behInit maxI _ _ _ h u]
    simp [dictKeys]
  exact ⟨hkeys, pollCycle_keys behCycle maxC _ ref msgs
    (fun u hu => (hkeys u).mpr hu)⟩

/-- Witness for `C10_fixed_key_set`: one seeded profile, one cycle that
replaces its value; the key list stays `[u]`. -/
theorem C10_witness :
    (∀ v, v ∈ dictKeys [("u".toList, (∅ : Finset Str))] ↔
      v ∈ usernamesOf ["u".toList]) ∧
    dictKeys (pollCycle C3behLater 2 (usernamesOf ["u".toList])
        [("u".toList, ∅)] []).ref =
      dictKeys [("u".toList, (∅ : Finset Str))] := by
  have hinit : initRefIds C3behSeedFail 2 (usernamesOf ["u".toList]) [] =
      .ok [("u".toList, ∅)] := by rfl
  have := C10_fixed_key_set C3behSeedFail C3behLater 2 2 ["u".toList]
    [("u".toList, ∅)] [] hinit
  exact this

def C7beh : Str → PageBehavior := fun _ => .content (fun _ =>
  [⟨"2".toList, "/u/status/2".toList, some 2, "t".toList⟩,
   ⟨"9".toList, "/u/status/9".toList, none, "t".toList⟩,
   ⟨"1".toList, "/u/status/1".toList, some 1, "t".toList⟩])

/-- Claim C7: a fetch whose raw records carry timestamps `[T2, null, T1]`
(`T2 > T1`) returns them ordered `[T2, T1, null]` — descending by
`created_at` with null last; moreover every fetch result
(`postProcess`) and every batch of new posts handed to the dispatcher
(`profileStep`) is sorted in that same order. -/
theorem C7_null_timestamp_ordering :
    scrape_profile_df C7beh "u".toList 3 = .ok
      [⟨"2".toList, "u".toList, some 2, "t".toList, "/u/status/2".toList⟩,
       ⟨"1".toList, "u".toList, some 1, "t".toList, "/u/status/1".toList⟩,
       ⟨"9".toList, "u".toList, none, "t".toList, "/u/status/9".toList⟩] ∧
    (∀ (username : Str) (max_tweets : Nat) (items : List Item),
      (postProcess username max_tweets items).Pairwise
        (fun a b => tsLE a.created_at b.created_at = true)) ∧
    (∀ (ref : RefIds) (u : Str) (cur_df : List Post),
      ((profileStep ref u cur_df).1).Pairwise
        (fun a b => tsLE a.created_at b.created_at = true)) := by
  refine ⟨?_, ?_, ?_⟩
  · simp [scrape_profile_df, C7beh, parse_username, pyStrip, pyStartsWith,
      postProcess, scrapeLoop, loopBody, add_batch, drop_duplicates,
      sortByCreated, List.mergeSort, List.merge, tsLE]
  · intro username max_tweets items
    rw [postProcess]
    split
    · simp
    · exact sortByCreated_sorted _
  · intro ref u cur_df
    rw [profileStep]
    split
    · exact List.pairwise_map.mpr (sortByCreated_sorted _)
    · simp

/-- Claim C8: an extracted absolute (http-prefixed, nonempty) url is
dispatched as-is; a relative url is rebuilt from profile and id — the
record `url=/alice/status/42, profile=alice, id=42` dispatches with
`https://x.com/alice/status/42`; and every notification a polling step
emits carries an http-prefixed url, never a bare relative path. -/
theorem C8_absolute_urls :
    (∀ username tweet_id scraped_url : Str, scraped_url ≠ [] →
      pyStartsWith scraped_url "http".toList = true →
      build_tweet_url username tweet_id scraped_url = scraped_url) ∧
    build_tweet_url "alice".toList "42".toList "/alice/status/42".toList =
      "https://x.com/alice/status/42".toList ∧
    (∀ username tweet_id scraped_url : Str,
      pyStartsWith (build_tweet_url username tweet_id scraped_url)
        "http".toList = true) ∧
    (∀ (ref : RefIds) (u : Str) (cur_df : List Post),
      ∀ n ∈ (profileStep ref u cur_df).1,
        pyStartsWith n.url "http".toList = true) := by
  have habs : ∀ username tweet_id scraped_url : Str,
      pyStartsWith (build_tweet_url username tweet_id scraped_url)
        "http".toList = true := by
    intro username tweet_id scraped_url
    rw [build_tweet_url]
    split
    · rename_i h
      exact h.2
    · rw [pyStartsWith, List.isPrefixOf_iff_prefix]
      have h1 : ("http".toList : Str) <+: "https://x.com/".toList := by
        refine ⟨"s://x.com/".toList, by decide⟩
      exact h1.trans (by simpa using List.prefix_append _ _)
  refine ⟨?_, by decide, habs, ?_⟩
  · intro username tweet_id scraped_url h1 h2
    rw [build_tweet_url, if_pos ⟨h1, h2⟩]
  · intro ref u cur_df n hn
    rw [profileStep] at hn
    split at hn
    · rcases List.mem_map.mp hn with ⟨r, _, rfl⟩
      exact habs _ _ _
    · simp at hn

/-- Witness for `C8_absolute_urls` at concrete inputs. -/
theorem C8_witness :
    build_tweet_url "a".toList "1".toList "https://x.com/a/status/1".toList =
      "https://x.com/a/status/1".toList :=
  (C8_absolute_urls).1 "a".toList "1".toList "https://x.com/a/status/1".toList
    (by decide) (by decide)

theorem loopBody_true_break (batches : Nat → List Item) (max_tweets : Nat)
    (s : LoopState) (h : (loopBody batches max_tweets s).2 = true) :
    max_tweets ≤ (loopBody batches max_tweets s).1.items.length := by
  unfold loopBody at *
  dsimp only at *
  split at h
  · rename_i hle
    rw [if_pos hle]
    exact hle
  · simp at h

theorem scrapeLoop_exit (batches : Nat → List Item) (max_tweets : Nat) :
    ∀ s : LoopState, s.idle_rounds ≤ 8 →
      max_tweets ≤ (scrapeLoop batches max_tweets s).items.length ∨
      (scrapeLoop batches max_tweets s).idle_rounds = 8 := by
  intro s
  induction s using scrapeLoop.induct batches max_tweets with
  | case1 x hguard t hbody =>
    intro _
    rw [scrapeLoop, dif_pos hguard, hbody]
    left
    have := loopBody_true_break batches max_tweets x (by rw [hbody])
    rw [hbody] at this
    exact this
  | case2 x hguard t hbody ih =>
    intro _
    rw [scrapeLoop, dif_pos hguard, hbody]
    apply ih
    have hd := loopBody_dichotomy batches max_tweets x (by rw [hbody])
    rw [hbody] at hd
    dsimp at hd
    omega
  | case3 x hguard =>
    intro hidle
    rw [scrapeLoop, dif_neg hguard]
    omega

/-- Invariant of the collection loop: the collected items have pairwise
distinct ids, all recorded in `seen`. -/
def collectedInv (seen : List Str) (items : List Item) : Prop :=
  (items.map Item.id).Nodup ∧ ∀ i ∈ items.map Item.id, i ∈ seen

theorem add_batch_cons (t : Item) (ts : List Item) (seen : List Str)
    (items : List Item) :
    add_batch (t :: ts) seen items =
      if t.id ∈ seen then add_batch ts seen items
      else add_batch ts (t.id :: seen) (items ++ [t]) := by
  by_cases h : t.id ∈ seen <;> simp [add_batch, List.foldl_cons, h]

theorem add_batch_inv (batch : List Item) :
    ∀ (seen : List Str) (items : List Item), collectedInv seen items →
      collectedInv (add_batch batch seen items).1 (add_batch batch seen items).2 := by
  induction batch with
  | nil => intro seen items h; exact h
  | cons t ts ih =>
    intro seen items h
    rw [add_batch_cons]
    split
    · exact ih seen items h
    · rename_i hmem
      apply ih
      constructor
      · rw [List.map_append]
        rw [List.nodup_append]
        refine ⟨h.1, by simp, ?_⟩
        intro i hi
        simp only [List.map_cons, List.map_nil, List.mem_singleton]
        intro hit
        exact hmem (hit ▸ h.2 i hi)
      · intro i hi
        rw [List.map_append] at hi
        rcases List.mem_append.mp hi with hi | hi
        · exact List.mem_cons_of_mem _ (h.2 i hi)
        · simp only [List.map_cons, List.map_nil, List.mem_singleton] at hi
          simp [hi]

theorem loopBody_inv (batches : Nat → List Item) (max_tweets : Nat)
    (s : LoopState) (h : collectedInv s.seen s.items) :
    collectedInv (loopBody batches max_tweets s).1.seen
      (loopBody batches max_tweets s).1.items := by
  unfold loopBody
  dsimp only
  split
  · exact add_batch_inv _ _ _ h
  · exact add_batch_inv _ _ _ (add_batch_inv _ _ _ h)

theorem scrapeLoop_inv (batches : Nat → List Item) (max_tweets : Nat) :
    ∀ s : LoopState, collectedInv s.seen s.items →
      collectedInv (scrapeLoop batches max_tweets s).seen
        (scrapeLoop batches max_tweets s).items := by
  intro s
  induction s using scrapeLoop.induct batches max_tweets with
  | case1 x hguard t hbody =>
    intro h
    rw [scrapeLoop, dif_pos hguard, hbody]
    have := loopBody_inv batches max_tweets x h
    rw [hbody] at this
    exact this
  | case2 x hguard t hbody ih =>
    intro h
    rw [scrapeLoop, dif_pos hguard, hbody]
    apply ih
    have := loopBody_inv batches max_tweets x h
    rw [hbody] at this
    exact this
  | case3 x hguard =>
    intro h
    rw [scrapeLoop, dif_neg hguard]
    exact h

/-- Claim C9: the scroll-and-collect loop terminates for every input
(`scrapeLoop` is total by well-founded recursion on
`9 * (max_tweets - len(items)) + (8 - idle_rounds)`): every non-breaking
round either strictly increases the number of collected items (whose ids
are pairwise distinct, third conjunct) and resets the no-progress
counter, or leaves the items unchanged and increments it; and the loop
exits exactly when `max_tweets` distinct ids have been collected or the
counter reaches 8 consecutive no-progress rounds. -/
theorem C9_loop_termination (batches : Nat → List Item) (max_tweets : Nat) :
    (∀ s : LoopState, (loopBody batches max_tweets s).2 = false →
      ((loopBody batches max_tweets s).1.items.length = s.items.length ∧
        (loopBody batches max_tweets s).1.idle_rounds = s.idle_rounds + 1) ∨
      (s.items.length < (loopBody batches max_tweets s).1.items.length ∧
        (loopBody batches max_tweets s).1.idle_rounds = 0)) ∧
    (max_tweets ≤ (scrapeLoop batches max_tweets ⟨0, [], [], 0⟩).items.length ∨
      (scrapeLoop batches max_tweets ⟨0, [], [], 0⟩).idle_rounds = 8) ∧
    ((scrapeLoop batches max_tweets ⟨0, [], [], 0⟩).items.map Item.id).Nodup := by
  refine ⟨fun s => loopBody_dichotomy batches max_tweets s, ?_, ?_⟩
  · exact scrapeLoop_exit batches max_tweets ⟨0, [], [], 0⟩ (by simp)
  · exact (scrapeLoop_inv batches max_tweets ⟨0, [], [], 0⟩
      ⟨by simp, by simp⟩).1

/-- Witness for `C9_loop_termination` on a concrete page that never
yields content: the first round makes no progress, and the loop ends in
the 8-idle-rounds exit state. -/
theorem C9_witness :
    (((loopBody (fun _ => []) 3 ⟨0, [], [], 0⟩).1.items.length =
        (⟨0, [], [], 0⟩ : LoopState).items.length ∧
      (loopBody (fun _ => []) 3 ⟨0, [], [], 0⟩).1.idle_rounds =
        (⟨0, [], [], 0⟩ : LoopState).idle_rounds + 1) ∨
     ((⟨0, [], [], 0⟩ : LoopState).items.length <
        (loopBody (fun _ => []) 3 ⟨0, [], [], 0⟩).1.items.length ∧
      (loopBody (fun _ => []) 3 ⟨0, [], [], 0⟩).1.idle_rounds = 0)) ∧
    (3 ≤ (scrapeLoop (fun _ => []) 3 ⟨0, [], [], 0⟩).items.length ∨
      (scrapeLoop (fun _ => []) 3 ⟨0, [], [], 0⟩).idle_rounds = 8) :=
  ⟨(C9_loop_termination (fun _ => []) 3).1 ⟨0, [], [], 0⟩ (by decide),
   (C9_loop_termination (fun _ => []) 3).2.1⟩
